import Mathlib

/-!
# Verification of the newrelic-kubernetes-operator reconcilers

Shallow embedding of `controllers/policy_controller.go` and the
AlertsChannel controller: the data model of the custom resources, the
collaborator interfaces (declarative object store, remote alerting client)
as stub functions, and the reconciliation control flow as pure functions
that additionally return the ordered list of collaborator calls they issue.

Store and remote calls are recorded as `Event`s; errors are `Option String`
(`none` = Go `nil` error) or `Except String α` for calls that return a value.
Go panics (nil-pointer dereference, index out of range) are modelled as
`Except.error` values whose message starts with `panic:`.
-/

namespace NROperator

/-- Go `v1alpha1.NewRelicAPIKeySecret`: reference to a secret holding the API key. -/
structure NewRelicAPIKeySecret where
  Namespace : String
  Name : String
  KeyName : String
deriving DecidableEq, Repr, Inhabited

/-- The zero value `NewRelicAPIKeySecret{}` used by `getAPIKeyOrSecret`. -/
def NewRelicAPIKeySecret.zero : NewRelicAPIKeySecret := ⟨"", "", ""⟩

/-- Go `nrv1.AlertConditionTerm` (durations/thresholds kept as their string form). -/
structure AlertConditionTerm where
  Duration : String
  Operator : String
  Priority : String
  Threshold : String
  TimeFunction : String
deriving DecidableEq, Repr, Inhabited

/-- Go `nrv1.NrqlQuery`. -/
structure NrqlQuery where
  Query : String
  SinceValue : String
deriving DecidableEq, Repr, Inhabited

/-- Go `nrv1.NrqlAlertConditionSpec`, with the fields the controller reads and
writes (`Region`, `ExistingPolicyID`, `APIKey`, `APIKeySecret`) plus the
content fields exercised by the integration test. -/
structure NrqlAlertConditionSpec where
  Terms : List AlertConditionTerm
  Nrql : NrqlQuery
  /-- The Go field `Type` (`Type` is reserved in Lean). -/
  Type' : String
  Name : String
  RunbookURL : String
  ValueFunction : String
  ID : Int
  ViolationCloseTimer : Int
  ExpectedGroups : Int
  IgnoreOverlap : Bool
  Enabled : Bool
  ExistingPolicyID : Int
  APIKey : String
  APIKeySecret : NewRelicAPIKeySecret
  Region : String
deriving DecidableEq, Repr, Inhabited

/-- The zero value `NrqlAlertConditionSpec{}` (all fields at their Go zero). -/
def NrqlAlertConditionSpec.zero : NrqlAlertConditionSpec :=
  { Terms := [], Nrql := ⟨"", ""⟩, Type' := "", Name := "", RunbookURL := ""
    ValueFunction := "", ID := 0, ViolationCloseTimer := 0, ExpectedGroups := 0
    IgnoreOverlap := false, Enabled := false, ExistingPolicyID := 0
    APIKey := "", APIKeySecret := .zero, Region := "" }

/-- Go `nrv1.NrqlAlertConditionStatus`: remote id and last-applied snapshot
(`AppliedSpec` is a Go pointer, hence `Option`). -/
structure NrqlAlertConditionStatus where
  AppliedSpec : Option NrqlAlertConditionSpec
  ConditionID : Int
deriving DecidableEq, Repr, Inhabited

/-- Go `nrv1.NrqlAlertCondition`: a condition custom resource with the object
metadata the controller touches. An empty `ResourceVersion` means the object
was never persisted by the store. -/
structure NrqlAlertCondition where
  Name : String
  Namespace : String
  Labels : List (String × String)
  ResourceVersion : String
  Spec : NrqlAlertConditionSpec
  Status : NrqlAlertConditionStatus
deriving DecidableEq, Repr, Inhabited

/-- Go `nrv1.PolicySpec`. -/
structure PolicySpec where
  Name : String
  IncidentPreference : String
  APIKey : String
  APIKeySecret : NewRelicAPIKeySecret
  Region : String
  Conditions : List NrqlAlertCondition
deriving DecidableEq, Repr, Inhabited

/-- Go `nrv1.PolicyStatus`: `PolicyID` 0 means unassigned; `AppliedSpec` is a
pointer, nil until first successful sync. -/
structure PolicyStatus where
  AppliedSpec : Option PolicySpec
  PolicyID : Int
deriving DecidableEq, Repr, Inhabited

/-- Go `nrv1.Policy` with the object metadata the reconciler uses.
`DeletionTimestampIsZero` models `policy.DeletionTimestamp.IsZero()`. -/
structure Policy where
  Name : String
  Namespace : String
  Labels : List (String × String)
  Finalizers : List String
  DeletionTimestampIsZero : Bool
  Spec : PolicySpec
  Status : PolicyStatus
deriving DecidableEq, Repr, Inhabited

/-- Go `alerts.Policy`, the remote API's policy representation. Modelled from the
spec: the remote client contract exchanges `{id, name}` records plus the
incident preference carried by `PolicySpec.APIPolicy()` (the `api/v1` package
is not part of the analyzed source). -/
structure APIPolicy where
  ID : Int
  Name : String
  IncidentPreference : String
deriving DecidableEq, Repr, Inhabited

/-- Go `PolicySpec.APIPolicy()`. Modelled from the spec: converts the declarative
spec into the remote API shape, with the identifier left at 0 (the caller sets
it on the update path). -/
def PolicySpec.APIPolicy (s : PolicySpec) : APIPolicy :=
  { ID := 0, Name := s.Name, IncidentPreference := s.IncidentPreference }

/-- Go `v1.Secret`: data fields as named strings. -/
structure Secret where
  Data : List (String × String)
deriving DecidableEq, Repr, Inhabited

/-- Go `secret.Data[keyName]` — map indexing with the Go zero value (empty
string) when the field is absent. -/
def Secret.dataGet (s : Secret) (keyName : String) : String :=
  match s.Data.lookup keyName with
  | some v => v
  | none => ""

/-- Go `nrv1.AlertsChannelSpec` (same credential/region shape as `PolicySpec`,
no nested children). -/
structure AlertsChannelSpec where
  Name : String
  APIKey : String
  APIKeySecret : NewRelicAPIKeySecret
  Region : String
deriving DecidableEq, Repr, Inhabited

/-- Go `nrv1.AlertsChannelStatus`. -/
structure AlertsChannelStatus where
  AppliedSpec : Option AlertsChannelSpec
  ChannelID : Int
deriving DecidableEq, Repr, Inhabited

/-- Go `nrv1.AlertsChannel`. -/
structure AlertsChannel where
  Name : String
  Namespace : String
  Finalizers : List String
  DeletionTimestampIsZero : Bool
  Spec : AlertsChannelSpec
  Status : AlertsChannelStatus
deriving DecidableEq, Repr, Inhabited

/-- Go `alerts.Channel`, the remote channel representation. Modelled from the
spec's remote-client contract (`{id, name}`). -/
structure APIChannel where
  ID : Int
  Name : String
deriving DecidableEq, Repr, Inhabited

/-- Go `AlertsChannelSpec.APIChannel()`. Modelled from the spec: converts the
declarative channel spec into the remote API shape. -/
def AlertsChannelSpec.APIChannel (s : AlertsChannelSpec) : APIChannel :=
  { ID := 0, Name := s.Name }

/-- Go `containsString` helper (standard kubebuilder finalizer helper; not in the
analyzed files). Modelled from the spec: membership test on the finalizer
list. -/
def containsString (slice : List String) (s : String) : Bool :=
  slice.contains s

/-- Go `removeString` helper (standard kubebuilder finalizer helper; not in the
analyzed files). Modelled from the spec: removes the finalizer guard from the
list. -/
def removeString (slice : List String) (s : String) : List String :=
  slice.filter (fun item => item ≠ s)

/-- One collaborator call issued during a reconciliation, in order. `remote*`
events are calls on the remote alerting client; `store*` events are writes
through the declarative object store. -/
inductive Event where
  | remoteCreatePolicy (p : APIPolicy)
  | remoteUpdatePolicy (p : APIPolicy)
  | remoteDeletePolicy (id : Int)
  | remoteListPolicies (nameFilter : String)
  | remoteCreateChannel (c : APIChannel)
  | remoteDeleteChannel (id : Int)
  | storeCreateCondition (c : NrqlAlertCondition)
  | storeUpdateCondition (c : NrqlAlertCondition)
  | storeDeleteCondition (name : String)
  | storeUpdatePolicy (p : Policy)
  | storeUpdateChannel (c : AlertsChannel)
deriving DecidableEq, Repr

/-- Is this a call on the remote alerting API? -/
def Event.isRemote : Event → Bool
  | .remoteCreatePolicy _ => true
  | .remoteUpdatePolicy _ => true
  | .remoteDeletePolicy _ => true
  | .remoteListPolicies _ => true
  | .remoteCreateChannel _ => true
  | .remoteDeleteChannel _ => true
  | _ => false

/-- Is this a write to the declarative object store? -/
def Event.isStoreWrite : Event → Bool
  | .storeCreateCondition _ => true
  | .storeUpdateCondition _ => true
  | .storeDeleteCondition _ => true
  | .storeUpdatePolicy _ => true
  | .storeUpdateChannel _ => true
  | _ => false

/-- Is this a remote create call (policy or channel)? -/
def Event.isRemoteCreate : Event → Bool
  | .remoteCreatePolicy _ => true
  | .remoteCreateChannel _ => true
  | _ => false

end NROperator

namespace NROperator

/-- FNV-1a 32-bit (`hash/fnv.New32a`): fold over the byte stream with the
32-bit overflow made explicit. -/
def fnv1a32 (bytes : List Nat) : Nat :=
  bytes.foldl (fun h b => ((h ^^^ (b % 256)) * 16777619) % 4294967296) 2166136261

/-- Go `DeepHashObject` feeds a deterministic full-value rendering of the object
into the hasher (the Go code prints with `spew` `%#v`, sorted keys, following
pointers). Modelled as the bytes of the derived `Repr` rendering, which is
likewise a deterministic full-value print. -/
def deepHashBytes (s : NrqlAlertConditionSpec) : List Nat :=
  (reprStr s).toList.map Char.toNat

/-- Go `ComputeHash`: 32-bit FNV-1a content hash of a condition template spec. -/
def ComputeHash (template : NrqlAlertConditionSpec) : Nat :=
  fnv1a32 (deepHashBytes template)

/-- Go `strings.Contains`. -/
def strContains (s sub : String) : Bool :=
  (List.range (s.length + 1)).any (fun i => ((s.drop i).take sub.length) = sub)

/-- Go `reflect.DeepEqual(&policy.Spec, policy.Status.AppliedSpec)`: deep
equality through pointers; a nil `AppliedSpec` is never equal to the non-nil
`&policy.Spec`. -/
def specEqualsApplied (spec : PolicySpec) (applied : Option PolicySpec) : Bool :=
  match applied with
  | none => false
  | some a => spec = a

/-- Go `reflect.DeepEqual(&alertsChannel.Spec, alertsChannel.Status.AppliedSpec)`. -/
def chanSpecEqualsApplied (spec : AlertsChannelSpec) (applied : Option AlertsChannelSpec) : Bool :=
  match applied with
  | none => false
  | some a => spec = a

/-- The finalizer guard constant of the policy controller
(`deleteFinalizer` in `PolicyReconciler.Reconcile`). -/
def policyFinalizer : String := "storage.finalizers.tutorial.kubebuilder.io"

/-- The finalizer guard constant of the channel controller
(`deleteFinalizer` in `AlertsChannelReconciler.Reconcile`). -/
def channelFinalizer : String := "alertschannels.finalizers.nr.k8s.newrelic.com"

/-- Appends the finalizer guard to the in-memory finalizer list when absent
(the `if !containsString(...) { append }` step of both reconcilers). -/
def ensureFinalizer (finalizers : List String) (fin : String) : List String :=
  if containsString finalizers fin then finalizers else finalizers ++ [fin]

/-- The collaborators of `PolicyReconciler`, as stubs: the declarative object
store (`r.Client`), the secret store, the client factory `AlertClientFunc`
(only its error matters — on success the remote client is the other stub
fields), and the remote alerts client operations. `none` = Go `nil` error. -/
structure PolicyDeps where
  getPolicy : Except String Policy
  getSecret : NewRelicAPIKeySecret → Except String Secret
  clientFuncErr : String → String → Option String
  createPolicyRemote : APIPolicy → Except String APIPolicy
  updatePolicyRemote : APIPolicy → Except String APIPolicy
  deletePolicyRemote : Int → Option String
  listPoliciesRemote : String → Except String (List APIPolicy)
  storeCreateCondition : NrqlAlertCondition → Option String
  storeUpdateCondition : NrqlAlertCondition → Option String
  storeDeleteCondition : NrqlAlertCondition → Option String
  storeUpdatePolicy : Policy → Option String

/-- Result of a policy-controller helper: Go error, the in-memory `*policy`
after the call (Go mutates it through the pointer), and the collaborator
calls issued, in order. -/
structure PolicyOut where
  err : Option String
  pol : Policy
  events : List Event
deriving Repr

/-- Result of `PolicyReconciler.Reconcile`: Go error of the invocation, the
in-memory policy at return (`none` when the initial fetch failed), and the
collaborator calls issued, in order. -/
structure ReconcileOut where
  err : Option String
  pol : Option Policy
  events : List Event
deriving Repr

namespace PolicyReconciler

/-- Go `getAPIKeyOrSecret` (policy controller): inline key when non-empty;
otherwise, when a secret reference is set, fetch the secret and index its
data. The Go code ignores the fetch error and indexes the zero-valued
secret, whose nil data map yields the empty string. -/
def getAPIKeyOrSecret (deps : PolicyDeps) (policy : Policy) : String :=
  if policy.Spec.APIKey ≠ "" then
    policy.Spec.APIKey
  else if policy.Spec.APIKeySecret ≠ NewRelicAPIKeySecret.zero then
    match deps.getSecret policy.Spec.APIKeySecret with
    | .ok apiKeySecret => apiKeySecret.dataGet policy.Spec.APIKeySecret.KeyName
    | .error _ => (Secret.mk []).dataGet policy.Spec.APIKeySecret.KeyName
  else ""

/-- The mutation half of Go `createCondition`: content-hash name from the
pre-copy-down spec, parent metadata copied to the object, status cleared,
denormalized parent fields copied into the spec. -/
def cookCondition (policy : Policy) (condition : NrqlAlertCondition) : NrqlAlertCondition :=
  let conditionSpecHash := toString (ComputeHash condition.Spec)
  let condition := { condition with
    Name := policy.Name ++ conditionSpecHash
    Namespace := policy.Namespace
    Labels := policy.Labels
    Status := { AppliedSpec := some NrqlAlertConditionSpec.zero, ConditionID := 0 } }
  { condition with Spec := { condition.Spec with
    Region := policy.Spec.Region
    ExistingPolicyID := policy.Status.PolicyID
    APIKey := policy.Spec.APIKey
    APIKeySecret := policy.Spec.APIKeySecret } }

/-- Go `createCondition` issues the store `Create` on the mutated condition
and returns its error, the mutated condition, and the call issued. -/
def createCondition (deps : PolicyDeps) (policy : Policy) (condition : NrqlAlertCondition) :
    Option String × NrqlAlertCondition × List Event :=
  let condition := cookCondition policy condition
  (deps.storeCreateCondition condition, condition, [Event.storeCreateCondition condition])

/-- Writes condition `c` back at index `i` of `policy.Spec.Conditions`
(`policy.Spec.Conditions[i] = condition`). -/
def setCondAt (policy : Policy) (i : Nat) (c : NrqlAlertCondition) : Policy :=
  { policy with Spec := { policy.Spec with Conditions := policy.Spec.Conditions.set i c } }

/-- Go `createOrUpdateConditions`. If `Spec.Conditions` deep-equals the applied
conditions, no-op. Otherwise the Go `for` loop runs — but its body ends in an
unconditional `return nil`, so at most the element at index 0 is processed:
a condition with a resource-version token is compared against
`Status.AppliedSpec.Conditions[0]` and store-updated when different (the
update's error is discarded); a token-less condition goes through
`createCondition`. Dereferencing a nil `AppliedSpec`, or indexing past the
applied conditions, panics in Go. -/
def createOrUpdateConditions (deps : PolicyDeps) (policy : Policy) : PolicyOut :=
  match policy.Status.AppliedSpec with
  | none => { err := some "panic: nil AppliedSpec", pol := policy, events := [] }
  | some applied =>
    if policy.Spec.Conditions = applied.Conditions then
      { err := none, pol := policy, events := [] }
    else
      match policy.Spec.Conditions with
      | [] => { err := none, pol := policy, events := [] }
      | condition :: _ =>
        if condition.ResourceVersion ≠ "" then
          match applied.Conditions[0]? with
          | none => { err := some "panic: index out of range", pol := policy, events := [] }
          | some conditionToUpdate =>
            if condition ≠ conditionToUpdate then
              { err := none
                pol := setCondAt policy 0 condition
                events := [Event.storeUpdateCondition condition] }
            else
              { err := none, pol := policy, events := [] }
        else
          let out := createCondition deps policy condition
          match out.1 with
          | some e => { err := some e, pol := policy, events := out.2.2 }
          | none => { err := none, pol := setCondAt policy 0 out.2.1, events := out.2.2 }

/-- Go `createPolicy`: remote create; on success stamp the returned identifier,
reconcile conditions, snapshot `AppliedSpec := Spec`, persist via the store.
Each failure is returned at once, leaving the later mutations undone. -/
def createPolicy (deps : PolicyDeps) (policy : Policy) : PolicyOut :=
  let api := policy.Spec.APIPolicy
  let events := [Event.remoteCreatePolicy api]
  match deps.createPolicyRemote api with
  | .error e => { err := some e, pol := policy, events }
  | .ok createdPolicy =>
    let policy := { policy with Status := { policy.Status with PolicyID := createdPolicy.ID } }
    let condOut := createOrUpdateConditions deps policy
    match condOut.err with
    | some e => { err := some e, pol := condOut.pol, events := events ++ condOut.events }
    | none =>
      let policy := condOut.pol
      let policy := { policy with Status := { policy.Status with AppliedSpec := some policy.Spec } }
      let events := events ++ condOut.events ++ [Event.storeUpdatePolicy policy]
      match deps.storeUpdatePolicy policy with
      | some e => { err := some e, pol := policy, events }
      | none => { err := none, pol := policy, events }

/-- Go `updatePolicy`: remote update with the stored identifier; on success
reconcile conditions, snapshot `AppliedSpec := Spec`, adopt the identifier
returned by the update, persist via the store. -/
def updatePolicy (deps : PolicyDeps) (policy : Policy) : PolicyOut :=
  let api := { policy.Spec.APIPolicy with ID := policy.Status.PolicyID }
  let events := [Event.remoteUpdatePolicy api]
  match deps.updatePolicyRemote api with
  | .error e => { err := some e, pol := policy, events }
  | .ok updatedPolicy =>
    let condOut := createOrUpdateConditions deps policy
    match condOut.err with
    | some e => { err := some e, pol := condOut.pol, events := events ++ condOut.events }
    | none =>
      let policy := condOut.pol
      let policy := { policy with
        Status := { AppliedSpec := some policy.Spec, PolicyID := updatedPolicy.ID } }
      let events := events ++ condOut.events ++ [Event.storeUpdatePolicy policy]
      match deps.storeUpdatePolicy policy with
      | some e => { err := some e, pol := policy, events }
      | none => { err := none, pol := policy, events }

/-- Go `checkForExistingPolicy`: only when `PolicyID == 0`, list remote policies
by name; a list failure is logged and swallowed; otherwise adopt the
identifier of the first exact name match (loop + `break`). -/
def checkForExistingPolicy (deps : PolicyDeps) (policy : Policy) : Policy × List Event :=
  if policy.Status.PolicyID = 0 then
    let events := [Event.remoteListPolicies policy.Spec.Name]
    match deps.listPoliciesRemote policy.Spec.Name with
    | .error _ => (policy, events)
    | .ok existingPolicies =>
      match existingPolicies.find? (fun p => p.Name == policy.Spec.Name) with
      | some existingPolicy =>
        ({ policy with Status := { policy.Status with PolicyID := existingPolicy.ID } }, events)
      | none => (policy, events)
  else (policy, [])

/-- Go `deleteCondition`: store delete of the condition resource; error
propagated. -/
def deleteCondition (deps : PolicyDeps) (condition : NrqlAlertCondition) :
    Option String × List Event :=
  (deps.storeDeleteCondition condition, [Event.storeDeleteCondition condition.Name])

/-- The `for _, condition := range policy.Status.AppliedSpec.Conditions` loop
of `deletePolicy`: delete each recorded child in order, aborting at the first
error. -/
def deleteConditions (deps : PolicyDeps) : List NrqlAlertCondition → Option String × List Event
  | [] => (none, [])
  | condition :: rest =>
    let out := deleteCondition deps condition
    match out.1 with
    | some e => (some e, out.2)
    | none =>
      let tailOut := deleteConditions deps rest
      (tailOut.1, out.2 ++ tailOut.2)

/-- Go `deleteNewRelicAlertPolicy`: remote policy delete by stored identifier. -/
def deleteNewRelicAlertPolicy (deps : PolicyDeps) (policy : Policy) :
    Option String × List Event :=
  (deps.deletePolicyRemote policy.Status.PolicyID, [Event.remoteDeletePolicy policy.Status.PolicyID])

/-- Go `deletePolicy` (the deletion protocol): nothing to do without the
finalizer; with `PolicyID == 0` the finalizer is removed from the in-memory
object and the function returns — note no store update follows on this
branch. Otherwise delete every recorded child (first error aborts), then the
remote policy (error aborts, finalizer kept), and only then remove the
finalizer and persist through the store. -/
def deletePolicy (deps : PolicyDeps) (policy : Policy) (deleteFinalizer : String) : PolicyOut :=
  if containsString policy.Finalizers deleteFinalizer then
    if policy.Status.PolicyID = 0 then
      { err := none
        pol := { policy with Finalizers := removeString policy.Finalizers deleteFinalizer }
        events := [] }
    else
      match policy.Status.AppliedSpec with
      | none => { err := some "panic: nil AppliedSpec", pol := policy, events := [] }
      | some applied =>
        let condDel := deleteConditions deps applied.Conditions
        match condDel.1 with
        | some e => { err := some e, pol := policy, events := condDel.2 }
        | none =>
          let polDel := deleteNewRelicAlertPolicy deps policy
          match polDel.1 with
          | some e => { err := some e, pol := policy, events := condDel.2 ++ polDel.2 }
          | none =>
            let policy := { policy with Finalizers := removeString policy.Finalizers deleteFinalizer }
            let events := condDel.2 ++ polDel.2 ++ [Event.storeUpdatePolicy policy]
            match deps.storeUpdatePolicy policy with
            | some e => { err := some e, pol := policy, events }
            | none => { err := none, pol := policy, events }
  else
    { err := none, pol := policy, events := [] }

/-- Go `PolicyReconciler.Reconcile`: fetch (any error → success after logging),
resolve credentials (blank is fatal), build the client, branch on the
deletion timestamp (deletion protocol is terminal), ensure the finalizer in
memory, short-circuit when `spec == appliedSpec`, discover an existing remote
policy, then update (`PolicyID != 0`) or create. -/
def Reconcile (deps : PolicyDeps) : ReconcileOut :=
  match deps.getPolicy with
  | .error e =>
    if strContains e " not found" then
      { err := none, pol := none, events := [] }
    else
      { err := none, pol := none, events := [] }
  | .ok policy =>
    let apiKey := getAPIKeyOrSecret deps policy
    if apiKey = "" then
      { err := some "api key is blank", pol := some policy, events := [] }
    else
      match deps.clientFuncErr apiKey policy.Spec.Region with
      | some e => { err := some e, pol := some policy, events := [] }
      | none =>
        let deleteFinalizer := policyFinalizer
        if policy.DeletionTimestampIsZero then
          let policy :=
            { policy with Finalizers := ensureFinalizer policy.Finalizers deleteFinalizer }
          if specEqualsApplied policy.Spec policy.Status.AppliedSpec then
            { err := none, pol := some policy, events := [] }
          else
            let disc := checkForExistingPolicy deps policy
            let policy := disc.1
            if policy.Status.PolicyID ≠ 0 then
              let out := updatePolicy deps policy
              { err := out.err, pol := some out.pol, events := disc.2 ++ out.events }
            else
              let out := createPolicy deps policy
              { err := out.err, pol := some out.pol, events := disc.2 ++ out.events }
        else
          let out := deletePolicy deps policy deleteFinalizer
          { err := out.err, pol := some out.pol, events := out.events }

end PolicyReconciler

end NROperator

namespace NROperator

/-- The collaborators of `AlertsChannelReconciler`, as stubs. -/
structure ChannelDeps where
  getChannel : Except String AlertsChannel
  getSecret : NewRelicAPIKeySecret → Except String Secret
  clientFuncErr : String → String → Option String
  createChannelRemote : APIChannel → Except String APIChannel
  deleteChannelRemote : Int → Option String
  storeUpdateChannel : AlertsChannel → Option String

/-- Result of a channel-controller helper: Go error, the in-memory channel
after the call, and the collaborator calls issued, in order. -/
structure ChannelOut where
  err : Option String
  ch : AlertsChannel
  events : List Event
deriving Repr

/-- Result of `AlertsChannelReconciler.Reconcile`. -/
structure ChannelReconcileOut where
  err : Option String
  ch : Option AlertsChannel
  events : List Event
deriving Repr

namespace AlertsChannelReconciler

/-- Go `getAPIKeyOrSecret` (channel controller): inline key when non-empty;
otherwise, when a secret reference is set, fetch the secret — here the fetch
error is checked and the empty string returned — and index its data. -/
def getAPIKeyOrSecret (deps : ChannelDeps) (alertschannel : AlertsChannel) : String :=
  if alertschannel.Spec.APIKey ≠ "" then
    alertschannel.Spec.APIKey
  else if alertschannel.Spec.APIKeySecret ≠ NewRelicAPIKeySecret.zero then
    match deps.getSecret alertschannel.Spec.APIKeySecret with
    | .error _ => ""
    | .ok apiKeySecret => apiKeySecret.dataGet alertschannel.Spec.APIKeySecret.KeyName
  else ""

/-- Go `deleteAlertsChannel`: when a remote identifier is recorded, call the
remote delete — its error is logged and then overwritten by the store
update's error, never returned on its own. The finalizer is removed and the
object persisted regardless of the remote delete's outcome. -/
def deleteAlertsChannel (deps : ChannelDeps) (alertsChannel : AlertsChannel)
    (deleteFinalizer : String) : ChannelOut :=
  let remoteEvs :=
    if alertsChannel.Status.ChannelID ≠ 0 then
      [Event.remoteDeleteChannel alertsChannel.Status.ChannelID]
    else []
  let alertsChannel :=
    { alertsChannel with Finalizers := removeString alertsChannel.Finalizers deleteFinalizer }
  let events := remoteEvs ++ [Event.storeUpdateChannel alertsChannel]
  match deps.storeUpdateChannel alertsChannel with
  | some e => { err := some e, ch := alertsChannel, events }
  | none => { err := none, ch := alertsChannel, events }

/-- Go `createAlertsChannel`: remote create; on success stamp the returned
identifier and `AppliedSpec := Spec`, then persist via the store. -/
def createAlertsChannel (deps : ChannelDeps) (alertsChannel : AlertsChannel) : ChannelOut :=
  let api := alertsChannel.Spec.APIChannel
  let events := [Event.remoteCreateChannel api]
  match deps.createChannelRemote api with
  | .error e => { err := some e, ch := alertsChannel, events }
  | .ok createdCondition =>
    let alertsChannel := { alertsChannel with
      Status := { AppliedSpec := some alertsChannel.Spec, ChannelID := createdCondition.ID } }
    let events := events ++ [Event.storeUpdateChannel alertsChannel]
    match deps.storeUpdateChannel alertsChannel with
    | some e => { err := some e, ch := alertsChannel, events }
    | none => { err := none, ch := alertsChannel, events }

/-- Go `updateAlertsChannel`: the function body is `return nil` — no remote
call, no store write, no mutation. -/
def updateAlertsChannel (_deps : ChannelDeps) (alertschannel : AlertsChannel) : ChannelOut :=
  { err := none, ch := alertschannel, events := [] }

/-- Go `checkForExistingAlertsChannel`: empty function body — no effect. -/
def checkForExistingAlertsChannel (_deps : ChannelDeps) (alertsChannel : AlertsChannel) :
    AlertsChannel :=
  alertsChannel

/-- Go `AlertsChannelReconciler.Reconcile`: same shape as the policy
reconciler, except that a successful deletion branch falls through to the
rest of the body instead of returning. -/
def Reconcile (deps : ChannelDeps) : ChannelReconcileOut :=
  match deps.getChannel with
  | .error e =>
    if strContains e " not found" then
      { err := none, ch := none, events := [] }
    else
      { err := none, ch := none, events := [] }
  | .ok alertsChannel =>
    let apiKey := getAPIKeyOrSecret deps alertsChannel
    if apiKey = "" then
      { err := some "api key is blank", ch := some alertsChannel, events := [] }
    else
      match deps.clientFuncErr apiKey alertsChannel.Spec.Region with
      | some e => { err := some e, ch := some alertsChannel, events := [] }
      | none =>
        let deleteFinalizer := channelFinalizer
        let step :=
          if alertsChannel.DeletionTimestampIsZero then
            { err := none
              ch := { alertsChannel with
                Finalizers := ensureFinalizer alertsChannel.Finalizers deleteFinalizer }
              events := [] : ChannelOut }
          else
            deleteAlertsChannel deps alertsChannel deleteFinalizer
        match step.err with
        | some e => { err := some e, ch := some step.ch, events := step.events }
        | none =>
          let alertsChannel := step.ch
          if chanSpecEqualsApplied alertsChannel.Spec alertsChannel.Status.AppliedSpec then
            { err := none, ch := some alertsChannel, events := step.events }
          else
            let alertsChannel := checkForExistingAlertsChannel deps alertsChannel
            if alertsChannel.Status.ChannelID ≠ 0 then
              let out := updateAlertsChannel deps alertsChannel
              { err := out.err, ch := some out.ch, events := step.events ++ out.events }
            else
              let out := createAlertsChannel deps alertsChannel
              { err := out.err, ch := some out.ch, events := step.events ++ out.events }

end AlertsChannelReconciler

end NROperator

namespace NROperator

/-! ## Supporting lemmas -/

/-- Discovery never changes the spec of the in-memory policy. -/
theorem checkForExistingPolicy_Spec (pd : PolicyDeps) (p : Policy) :
    (PolicyReconciler.checkForExistingPolicy pd p).1.Spec = p.Spec := by
  unfold PolicyReconciler.checkForExistingPolicy
  split
  · split
    · rfl
    · split <;> rfl
  · rfl

/-- Discovery never issues a store write: its only call is the remote list. -/
theorem checkForExistingPolicy_events (pd : PolicyDeps) (p : Policy) :
    ∀ ev ∈ (PolicyReconciler.checkForExistingPolicy pd p).2, ev = Event.remoteListPolicies p.Spec.Name := by
  unfold PolicyReconciler.checkForExistingPolicy
  split
  · split
    · simp
    · split <;> simp
  · simp

/-- Per-condition reconciliation only talks to the declarative store. -/
theorem createOrUpdateConditions_events_not_remote (pd : PolicyDeps) (p : Policy) :
    ∀ ev ∈ (PolicyReconciler.createOrUpdateConditions pd p).events, ev.isRemote = false := by
  unfold PolicyReconciler.createOrUpdateConditions
  split
  · simp
  · split
    · simp
    · split
      · simp
      · split
        · split
          · simp
          · split <;> simp [Event.isRemote]
        · dsimp only [PolicyReconciler.createCondition]
          split <;> simp [Event.isRemote]

end NROperator

namespace NROperator

/-- With `PolicyID == 0`, a successful list and a match, discovery adopts the
matched identifier, touching nothing else. -/
theorem checkForExistingPolicy_adopt (pd : PolicyDeps) (p : Policy) (l : List APIPolicy)
    (m : APIPolicy) (h0 : p.Status.PolicyID = 0)
    (hl : pd.listPoliciesRemote p.Spec.Name = .ok l)
    (hm : l.find? (fun q => q.Name == p.Spec.Name) = some m) :
    PolicyReconciler.checkForExistingPolicy pd p =
      ({ p with Status := { p.Status with PolicyID := m.ID } },
        [Event.remoteListPolicies p.Spec.Name]) := by
  unfold PolicyReconciler.checkForExistingPolicy
  rw [if_pos h0, hl]
  dsimp only
  rw [hm]

/-- A discovery list failure is swallowed: the policy is returned unchanged
and no error can surface (the function has no error output). -/
theorem checkForExistingPolicy_list_error (pd : PolicyDeps) (p : Policy) (e : String)
    (h0 : p.Status.PolicyID = 0)
    (hl : pd.listPoliciesRemote p.Spec.Name = .error e) :
    PolicyReconciler.checkForExistingPolicy pd p =
      (p, [Event.remoteListPolicies p.Spec.Name]) := by
  unfold PolicyReconciler.checkForExistingPolicy
  rw [if_pos h0, hl]

end NROperator

namespace NROperator

/-- The update path issues no remote create call. -/
theorem updatePolicy_no_remote_create (pd : PolicyDeps) (p : Policy) :
    ∀ ev ∈ (PolicyReconciler.updatePolicy pd p).events, ev.isRemoteCreate = false := by
  simp only [PolicyReconciler.updatePolicy]
  split
  · simp [Event.isRemoteCreate]
  · split
    · intro ev hev
      simp only [List.mem_append, List.mem_singleton] at hev
      rcases hev with h | h
      · rw [h]; rfl
      · have := createOrUpdateConditions_events_not_remote pd _ ev h
        revert this
        cases ev <;> simp [Event.isRemote, Event.isRemoteCreate]
    · split <;>
      · intro ev hev
        simp only [List.mem_append, List.mem_singleton] at hev
        rcases hev with (h | h) | h
        · rw [h]; rfl
        · have := createOrUpdateConditions_events_not_remote pd _ ev h
          revert this
          cases ev <;> simp [Event.isRemote, Event.isRemoteCreate]
        · rw [h]; rfl

/-- Behaviour of `Reconcile` on the live create-or-update path: fetch
succeeded, credentials resolved, client built, no deletion in progress, and
the spec differs from the applied spec. -/
theorem Reconcile_dirty (pd : PolicyDeps) (policy : Policy)
    (hget : pd.getPolicy = .ok policy)
    (hkey : PolicyReconciler.getAPIKeyOrSecret pd policy ≠ "")
    (hcli : pd.clientFuncErr (PolicyReconciler.getAPIKeyOrSecret pd policy) policy.Spec.Region = none)
    (hdel : policy.DeletionTimestampIsZero = true)
    (hne : specEqualsApplied policy.Spec policy.Status.AppliedSpec = false) :
    PolicyReconciler.Reconcile pd =
      (let policyF := { policy with Finalizers := ensureFinalizer policy.Finalizers policyFinalizer }
       let disc := PolicyReconciler.checkForExistingPolicy pd policyF
       if disc.1.Status.PolicyID ≠ 0 then
         let out := PolicyReconciler.updatePolicy pd disc.1
         { err := out.err, pol := some out.pol, events := disc.2 ++ out.events }
       else
         let out := PolicyReconciler.createPolicy pd disc.1
         { err := out.err, pol := some out.pol, events := disc.2 ++ out.events }) := by
  simp only [PolicyReconciler.Reconcile, hget, hcli, hdel, hne]
  rw [if_neg hkey]
  rfl

/-- Behaviour of `Reconcile` on the converged path: same premises except the
spec deep-equals the applied spec — the invocation succeeds with zero
collaborator calls. -/
theorem Reconcile_synced (pd : PolicyDeps) (policy : Policy)
    (hget : pd.getPolicy = .ok policy)
    (hkey : PolicyReconciler.getAPIKeyOrSecret pd policy ≠ "")
    (hcli : pd.clientFuncErr (PolicyReconciler.getAPIKeyOrSecret pd policy) policy.Spec.Region = none)
    (hdel : policy.DeletionTimestampIsZero = true)
    (heq : specEqualsApplied policy.Spec policy.Status.AppliedSpec = true) :
    PolicyReconciler.Reconcile pd =
      { err := none
        pol := some { policy with Finalizers := ensureFinalizer policy.Finalizers policyFinalizer }
        events := [] } := by
  simp only [PolicyReconciler.Reconcile, hget, hcli, hdel, heq]
  rw [if_neg hkey]
  rfl

/-- Behaviour of `Reconcile` when the deletion timestamp is set: the deletion
protocol is run and is terminal for the invocation. -/
theorem Reconcile_deleting (pd : PolicyDeps) (policy : Policy)
    (hget : pd.getPolicy = .ok policy)
    (hkey : PolicyReconciler.getAPIKeyOrSecret pd policy ≠ "")
    (hcli : pd.clientFuncErr (PolicyReconciler.getAPIKeyOrSecret pd policy) policy.Spec.Region = none)
    (hdel : policy.DeletionTimestampIsZero = false) :
    PolicyReconciler.Reconcile pd =
      (let out := PolicyReconciler.deletePolicy pd policy policyFinalizer
       { err := out.err, pol := some out.pol, events := out.events }) := by
  simp only [PolicyReconciler.Reconcile, hget, hcli, hdel]
  rw [if_neg hkey]
  rfl

/-- Behaviour of the channel `Reconcile` on the live create-or-update path
(no deletion in progress, spec differs from applied spec): when a remote
identifier is recorded the update stub runs — returning success with no
calls — and otherwise the create path runs. -/
theorem ChannelReconcile_dirty (cd : ChannelDeps) (ch : AlertsChannel)
    (hget : cd.getChannel = .ok ch)
    (hkey : AlertsChannelReconciler.getAPIKeyOrSecret cd ch ≠ "")
    (hcli : cd.clientFuncErr (AlertsChannelReconciler.getAPIKeyOrSecret cd ch) ch.Spec.Region = none)
    (hdel : ch.DeletionTimestampIsZero = true)
    (hne : chanSpecEqualsApplied ch.Spec ch.Status.AppliedSpec = false) :
    AlertsChannelReconciler.Reconcile cd =
      (let chF := { ch with Finalizers := ensureFinalizer ch.Finalizers channelFinalizer }
       if chF.Status.ChannelID ≠ 0 then
         { err := none, ch := some chF, events := [] }
       else
         let out := AlertsChannelReconciler.createAlertsChannel cd chF
         { err := out.err, ch := some out.ch, events := out.events }) := by
  simp only [AlertsChannelReconciler.Reconcile, hget, hcli, hdel, hne,
    AlertsChannelReconciler.checkForExistingAlertsChannel,
    AlertsChannelReconciler.updateAlertsChannel, if_true, Bool.false_eq_true, if_false]
  rw [if_neg hkey]
  rfl

/-- Behaviour of the channel `Reconcile` on the converged path: success with
zero collaborator calls. -/
theorem ChannelReconcile_synced (cd : ChannelDeps) (ch : AlertsChannel)
    (hget : cd.getChannel = .ok ch)
    (hkey : AlertsChannelReconciler.getAPIKeyOrSecret cd ch ≠ "")
    (hcli : cd.clientFuncErr (AlertsChannelReconciler.getAPIKeyOrSecret cd ch) ch.Spec.Region = none)
    (hdel : ch.DeletionTimestampIsZero = true)
    (heq : chanSpecEqualsApplied ch.Spec ch.Status.AppliedSpec = true) :
    AlertsChannelReconciler.Reconcile cd =
      { err := none
        ch := some { ch with Finalizers := ensureFinalizer ch.Finalizers channelFinalizer }
        events := [] } := by
  simp only [AlertsChannelReconciler.Reconcile, hget, hcli, hdel, heq, if_true]
  rw [if_neg hkey]

end NROperator

namespace NROperator

/-- When every recorded child delete succeeds, the deletion loop issues
exactly one store delete per recorded child, in list order. -/
theorem deleteConditions_ok (pd : PolicyDeps) (conds : List NrqlAlertCondition)
    (h : (PolicyReconciler.deleteConditions pd conds).1 = none) :
    (PolicyReconciler.deleteConditions pd conds).2 =
      conds.map (fun c => Event.storeDeleteCondition c.Name) := by
  induction conds with
  | nil => rfl
  | cons c rest ih =>
    simp only [PolicyReconciler.deleteConditions, PolicyReconciler.deleteCondition] at h ⊢
    cases hc : pd.storeDeleteCondition c with
    | some e =>
      rw [hc] at h
      simp at h
    | none =>
      rw [hc] at h
      dsimp only at h ⊢
      rw [List.singleton_append, List.map_cons, ih h]

/-- The deletion loop stops at the first failing child delete: it returns
that error, having issued the deletes of the successful prefix plus the
failing one, and nothing further. -/
theorem deleteConditions_first_error (pd : PolicyDeps) (pre : List NrqlAlertCondition)
    (c : NrqlAlertCondition) (post : List NrqlAlertCondition) (e : String)
    (hpre : ∀ c' ∈ pre, pd.storeDeleteCondition c' = none)
    (hc : pd.storeDeleteCondition c = some e) :
    PolicyReconciler.deleteConditions pd (pre ++ c :: post) =
      (some e, pre.map (fun c' => Event.storeDeleteCondition c'.Name)
        ++ [Event.storeDeleteCondition c.Name]) := by
  induction pre with
  | nil =>
    simp only [List.nil_append, List.map_nil]
    simp [PolicyReconciler.deleteConditions, PolicyReconciler.deleteCondition, hc]
  | cons p ps ih =>
    have hp : pd.storeDeleteCondition p = none := hpre p (by simp)
    simp only [List.cons_append, PolicyReconciler.deleteConditions,
      PolicyReconciler.deleteCondition, hp, List.append_eq]
    rw [ih (fun c' hm => hpre c' (by simp [hm]))]
    simp

/-- Every call the deletion loop issues is a store delete of a child. -/
theorem deleteConditions_events_shape (pd : PolicyDeps) (conds : List NrqlAlertCondition) :
    ∀ ev ∈ (PolicyReconciler.deleteConditions pd conds).2,
      ∃ n, ev = Event.storeDeleteCondition n := by
  induction conds with
  | nil => simp [PolicyReconciler.deleteConditions]
  | cons c rest ih =>
    simp only [PolicyReconciler.deleteConditions, PolicyReconciler.deleteCondition]
    cases hc : pd.storeDeleteCondition c with
    | some e => simp
    | none =>
      intro ev hev
      simp only [List.singleton_append, List.mem_cons] at hev
      rcases hev with h | h
      · exact ⟨c.Name, h⟩
      · exact ih ev h

end NROperator

namespace NROperator

/-! ## Concrete fixtures (patterned on the integration test) -/

/-- A condition carrying no store-assigned resource-version token. -/
def sampleCondition : NrqlAlertCondition :=
  { Name := "", Namespace := "", Labels := [], ResourceVersion := ""
    Spec := { NrqlAlertConditionSpec.zero with
      Name := "NRQL Condition", Type' := "NRQL"
      Nrql := { Query := "SELECT 1 FROM MyEvents", SinceValue := "5" } }
    Status := { AppliedSpec := some NrqlAlertConditionSpec.zero, ConditionID := 0 } }

/-- A second token-less condition with different content. -/
def sampleCondition2 : NrqlAlertCondition :=
  { sampleCondition with Spec := { sampleCondition.Spec with Name := "Second Condition" } }

/-- A policy spec with no conditions and an inline credential. -/
def freshSpec : PolicySpec :=
  { Name := "test policy", IncidentPreference := "PER_POLICY", APIKey := "112233"
    APIKeySecret := .zero, Region := "us", Conditions := [] }

/-- An everything-succeeds collaborator stub around a fixed stored policy
(remote create returns id 333, update id 222, patterned on the test doubles). -/
def happyPolicyDeps (p : Policy) : PolicyDeps :=
  { getPolicy := .ok p
    getSecret := fun _ => .ok { Data := [("api_key", "s3cret")] }
    clientFuncErr := fun _ _ => none
    createPolicyRemote := fun a => .ok { a with ID := 333 }
    updatePolicyRemote := fun a => .ok { a with ID := 222 }
    deletePolicyRemote := fun _ => none
    listPoliciesRemote := fun _ => .ok []
    storeCreateCondition := fun _ => none
    storeUpdateCondition := fun _ => none
    storeDeleteCondition := fun _ => none
    storeUpdatePolicy := fun _ => none }

/-- An everything-succeeds collaborator stub around a fixed stored channel. -/
def happyChannelDeps (c : AlertsChannel) : ChannelDeps :=
  { getChannel := .ok c
    getSecret := fun _ => .ok { Data := [("api_key", "s3cret")] }
    clientFuncErr := fun _ _ => none
    createChannelRemote := fun a => .ok { a with ID := 123 }
    deleteChannelRemote := fun _ => none
    storeUpdateChannel := fun _ => none }

/-- Is this a store create of a child condition resource? -/
def Event.isStoreCreateCond : Event → Bool
  | .storeCreateCondition _ => true
  | _ => false

end NROperator

namespace NROperator

/-! ## C1 — convergence idempotence -/

/-- A synced policy: spec deep-equals the applied snapshot, not deleting. -/
def syncedPolicy : Policy :=
  { Name := "test-policy", Namespace := "default", Labels := [], Finalizers := []
    DeletionTimestampIsZero := true, Spec := freshSpec
    Status := { AppliedSpec := some freshSpec, PolicyID := 333 } }

/-- A channel spec with an inline credential. -/
def chanSpec1 : AlertsChannelSpec :=
  { Name := "my channel", APIKey := "112233", APIKeySecret := .zero, Region := "us" }

/-- A synced channel: spec deep-equals the applied snapshot, not deleting. -/
def syncedChannel : AlertsChannel :=
  { Name := "chan", Namespace := "default", Finalizers := []
    DeletionTimestampIsZero := true, Spec := chanSpec1
    Status := { AppliedSpec := some chanSpec1, ChannelID := 7 } }

/-- A policy satisfying C1's hypotheses (no deletion in progress, applied spec
deep-equals spec) whose credential resolution yields the empty string. -/
def blankKeyPolicy : Policy :=
  let spec : PolicySpec := { freshSpec with APIKey := "" }
  { syncedPolicy with Spec := spec, Status := { AppliedSpec := some spec, PolicyID := 333 } }

/-- C1, counterexample: the claim quantifies over every policy whose deletion
timestamp is unset and whose applied spec deep-equals its spec, and asserts
`Reconcile` returns success. A converged policy whose credential resolves to
the empty string satisfies those hypotheses, yet `Reconcile` returns the
"api key is blank" error before reaching the convergence short-circuit. -/
theorem C1_counterexample :
    blankKeyPolicy.DeletionTimestampIsZero = true ∧
    specEqualsApplied blankKeyPolicy.Spec blankKeyPolicy.Status.AppliedSpec = true ∧
    (PolicyReconciler.Reconcile (happyPolicyDeps blankKeyPolicy)).err ≠ none := by
  refine ⟨rfl, by decide, by decide⟩

/-- C1 (amended): for every policy and channel whose deletion timestamp is
unset and whose applied spec deep-equals its spec, PROVIDED credential
resolution yields a non-empty key and remote-client construction succeeds,
`Reconcile` returns success and issues zero collaborator calls (remote or
store) — and therefore, the stored resource being untouched, the same holds
for arbitrarily many repeated invocations. -/
theorem C1_convergence_idempotence (pd : PolicyDeps) (cd : ChannelDeps)
    (policy : Policy) (ch : AlertsChannel)
    (hget : pd.getPolicy = .ok policy)
    (hkey : PolicyReconciler.getAPIKeyOrSecret pd policy ≠ "")
    (hcli : pd.clientFuncErr (PolicyReconciler.getAPIKeyOrSecret pd policy) policy.Spec.Region = none)
    (hdel : policy.DeletionTimestampIsZero = true)
    (heq : specEqualsApplied policy.Spec policy.Status.AppliedSpec = true)
    (hget' : cd.getChannel = .ok ch)
    (hkey' : AlertsChannelReconciler.getAPIKeyOrSecret cd ch ≠ "")
    (hcli' : cd.clientFuncErr (AlertsChannelReconciler.getAPIKeyOrSecret cd ch) ch.Spec.Region = none)
    (hdel' : ch.DeletionTimestampIsZero = true)
    (heq' : chanSpecEqualsApplied ch.Spec ch.Status.AppliedSpec = true) :
    (∀ n, ∀ out ∈ List.replicate n (PolicyReconciler.Reconcile pd),
      out.err = none ∧ out.events = []) ∧
    (∀ n, ∀ out ∈ List.replicate n (AlertsChannelReconciler.Reconcile cd),
      out.err = none ∧ out.events = []) := by
  constructor
  · intro n out hout
    rw [List.eq_of_mem_replicate hout,
      Reconcile_synced pd policy hget hkey hcli hdel heq]
    exact ⟨rfl, rfl⟩
  · intro n out hout
    rw [List.eq_of_mem_replicate hout,
      ChannelReconcile_synced cd ch hget' hkey' hcli' hdel' heq']
    exact ⟨rfl, rfl⟩

/-- C1, witness: the amended theorem applied to a concrete synced policy and
channel under all-success stubs. -/
theorem C1_witness :
    (∀ n, ∀ out ∈ List.replicate n (PolicyReconciler.Reconcile (happyPolicyDeps syncedPolicy)),
      out.err = none ∧ out.events = []) ∧
    (∀ n, ∀ out ∈ List.replicate n (AlertsChannelReconciler.Reconcile (happyChannelDeps syncedChannel)),
      out.err = none ∧ out.events = []) :=
  C1_convergence_idempotence (happyPolicyDeps syncedPolicy) (happyChannelDeps syncedChannel)
    syncedPolicy syncedChannel rfl (by decide) rfl rfl (by decide)
    rfl (by decide) rfl rfl (by decide)

/-! ## C2 — condition fan-out -/

/-- A policy declaring two token-less conditions, entering the create path. -/
def twoCondPolicy : Policy :=
  let spec : PolicySpec := { freshSpec with Conditions := [sampleCondition, sampleCondition2] }
  { Name := "test-policy", Namespace := "default", Labels := [], Finalizers := []
    DeletionTimestampIsZero := true, Spec := spec
    Status := { AppliedSpec := some freshSpec, PolicyID := 0 } }

/-- C2: evaluating the create path on a policy declaring TWO token-less
conditions. The per-condition loop body ends in an unconditional `return nil`
(policy_controller.go line 228), so the invocation succeeds having issued
only ONE child create — the second declared condition is never handled. -/
theorem C2_fanout_handles_only_first_condition :
    twoCondPolicy.Spec.Conditions.length = 2 ∧
    (∀ c ∈ twoCondPolicy.Spec.Conditions, c.ResourceVersion = "") ∧
    (PolicyReconciler.Reconcile (happyPolicyDeps twoCondPolicy)).err = none ∧
    ((PolicyReconciler.Reconcile (happyPolicyDeps twoCondPolicy)).events.countP
      Event.isStoreCreateCond) = 1 := by
  refine ⟨rfl, by decide, by decide, by decide⟩

/-! ## C10 — fetch errors swallowed -/

/-- A policy store stub whose primary fetch fails with a generic (non
not-found) error. -/
def badFetchPolicyDeps : PolicyDeps :=
  { happyPolicyDeps syncedPolicy with getPolicy := .error "connection refused" }

/-- A channel store stub whose primary fetch fails with a generic (non
not-found) error. -/
def badFetchChannelDeps : ChannelDeps :=
  { happyChannelDeps syncedChannel with getChannel := .error "connection refused" }

/-- C10: any error on the initial fetch of the primary entity — not-found or
otherwise — makes both `Reconcile` entry points return success with zero
collaborator calls, so transient store read failures are never surfaced. -/
theorem C10_fetch_error_swallowed (pd : PolicyDeps) (cd : ChannelDeps) (e e' : String)
    (hp : pd.getPolicy = .error e) (hc : cd.getChannel = .error e') :
    PolicyReconciler.Reconcile pd = { err := none, pol := none, events := [] } ∧
    AlertsChannelReconciler.Reconcile cd = { err := none, ch := none, events := [] } := by
  constructor
  · unfold PolicyReconciler.Reconcile
    rw [hp]
    dsimp only
    split <;> rfl
  · unfold AlertsChannelReconciler.Reconcile
    rw [hc]
    dsimp only
    split <;> rfl

/-- C10, witness: both reconcilers on a concrete failing fetch whose error is
not a not-found error. -/
theorem C10_witness :
    PolicyReconciler.Reconcile badFetchPolicyDeps = { err := none, pol := none, events := [] } ∧
    AlertsChannelReconciler.Reconcile badFetchChannelDeps = { err := none, ch := none, events := [] } :=
  C10_fetch_error_swallowed badFetchPolicyDeps badFetchChannelDeps
    "connection refused" "connection refused" rfl rfl

end NROperator

namespace NROperator

/-! ## C3 — create-path error preserves pre-state -/

/-- C3: on the create path (fetch ok, credentials ok, client built, not
deleting, spec differs from applied spec, discovery leaves the identifier at
0), a failing remote create makes the invocation return that error, and the
invocation issues no store write at all — so the stored identifier (e.g. 0)
and the stored `Status.AppliedSpec` keep their prior values. -/
theorem C3_create_error_preserves_prestate (pd : PolicyDeps) (policy : Policy) (e : String)
    (hget : pd.getPolicy = .ok policy)
    (hkey : PolicyReconciler.getAPIKeyOrSecret pd policy ≠ "")
    (hcli : pd.clientFuncErr (PolicyReconciler.getAPIKeyOrSecret pd policy) policy.Spec.Region = none)
    (hdel : policy.DeletionTimestampIsZero = true)
    (hne : specEqualsApplied policy.Spec policy.Status.AppliedSpec = false)
    (hdisc : (PolicyReconciler.checkForExistingPolicy pd
        { policy with Finalizers := ensureFinalizer policy.Finalizers policyFinalizer
        }).1.Status.PolicyID = 0)
    (hcreate : pd.createPolicyRemote policy.Spec.APIPolicy = .error e) :
    (PolicyReconciler.Reconcile pd).err = some e ∧
    ∀ ev ∈ (PolicyReconciler.Reconcile pd).events, ev.isStoreWrite = false := by
  rw [Reconcile_dirty pd policy hget hkey hcli hdel hne]
  dsimp only
  rw [if_neg (by rw [hdisc]; exact fun h => h rfl)]
  have hspec : (PolicyReconciler.checkForExistingPolicy pd
      { policy with Finalizers := ensureFinalizer policy.Finalizers policyFinalizer
      }).1.Spec = policy.Spec := checkForExistingPolicy_Spec pd _
  constructor
  · simp only [PolicyReconciler.createPolicy, hspec, hcreate]
  · intro ev hev
    simp only [PolicyReconciler.createPolicy, hspec, hcreate] at hev
    rcases List.mem_append.mp hev with h | h
    · rw [checkForExistingPolicy_events pd _ ev h]
      rfl
    · rw [List.mem_singleton.mp h]
      rfl

/-- The policy of the failing-create test: no conditions, identifier unset,
applied snapshot present but different from the spec. -/
def freshPolicy : Policy :=
  { Name := "test-policy", Namespace := "default", Labels := [], Finalizers := []
    DeletionTimestampIsZero := true, Spec := freshSpec
    Status := { AppliedSpec := some { freshSpec with IncidentPreference := "" }, PolicyID := 0 } }

/-- Collaborator stub whose remote create fails (the test's
"Any Error Goes Here" double). -/
def createFailDeps : PolicyDeps :=
  { happyPolicyDeps freshPolicy with createPolicyRemote := fun _ => .error "Any Error Goes Here" }

/-- C3, witness: the theorem at the concrete failing-create fixture. -/
theorem C3_witness :
    (PolicyReconciler.Reconcile createFailDeps).err = some "Any Error Goes Here" ∧
    ∀ ev ∈ (PolicyReconciler.Reconcile createFailDeps).events, ev.isStoreWrite = false :=
  C3_create_error_preserves_prestate createFailDeps freshPolicy "Any Error Goes Here"
    rfl (by decide) rfl rfl (by decide) (by decide) rfl

/-! ## C5 — channel update path -/

/-- A channel with a recorded remote identifier whose spec drifted from the
applied snapshot. -/
def dirtyChannel : AlertsChannel :=
  { Name := "chan", Namespace := "default", Finalizers := []
    DeletionTimestampIsZero := true, Spec := chanSpec1
    Status := { AppliedSpec := some { chanSpec1 with Name := "old name" }, ChannelID := 7 } }

/-- C5, counterexample: a channel with `ChannelID != 0`, a drifted spec and no
deletion in progress reaches the update branch, yet the invocation issues ZERO
collaborator calls — no remote update and no store write of identifier or
applied spec — refuting the claimed update-and-persist behaviour. -/
theorem C5_counterexample :
    dirtyChannel.Status.ChannelID ≠ 0 ∧
    chanSpecEqualsApplied dirtyChannel.Spec dirtyChannel.Status.AppliedSpec = false ∧
    dirtyChannel.DeletionTimestampIsZero = true ∧
    (AlertsChannelReconciler.Reconcile (happyChannelDeps dirtyChannel)).err = none ∧
    (AlertsChannelReconciler.Reconcile (happyChannelDeps dirtyChannel)).events = [] := by
  refine ⟨by decide, by decide, rfl, by decide, by decide⟩

/-- C5 (amended): for every channel with `ChannelID != 0`, spec not deeply
equal to the applied spec, deletion timestamp unset (and resolvable
credentials), `Reconcile` reaches the update branch, whose body is an
unimplemented stub (`return nil`): the invocation returns success and issues
no remote call and no store write. -/
theorem C5_channel_update_is_stub (cd : ChannelDeps) (ch : AlertsChannel)
    (hget : cd.getChannel = .ok ch)
    (hkey : AlertsChannelReconciler.getAPIKeyOrSecret cd ch ≠ "")
    (hcli : cd.clientFuncErr (AlertsChannelReconciler.getAPIKeyOrSecret cd ch) ch.Spec.Region = none)
    (hdel : ch.DeletionTimestampIsZero = true)
    (hne : chanSpecEqualsApplied ch.Spec ch.Status.AppliedSpec = false)
    (hid : ch.Status.ChannelID ≠ 0) :
    (AlertsChannelReconciler.Reconcile cd).err = none ∧
    (AlertsChannelReconciler.Reconcile cd).events = [] := by
  rw [ChannelReconcile_dirty cd ch hget hkey hcli hdel hne]
  dsimp only
  rw [if_pos hid]
  exact ⟨rfl, rfl⟩

/-- C5, witness: the amended theorem at the concrete drifted channel. -/
theorem C5_witness :
    (AlertsChannelReconciler.Reconcile (happyChannelDeps dirtyChannel)).err = none ∧
    (AlertsChannelReconciler.Reconcile (happyChannelDeps dirtyChannel)).events = [] :=
  C5_channel_update_is_stub (happyChannelDeps dirtyChannel) dirtyChannel
    rfl (by decide) rfl rfl (by decide) (by decide)

end NROperator

namespace NROperator

/-! ## C6 — deletion with no remote counterpart -/

/-- Removing the finalizer guard leaves a list that no longer contains it. -/
theorem containsString_removeString (l : List String) (s : String) :
    containsString (removeString l s) s = false := by
  simp [containsString, removeString, List.mem_filter]

/-- A policy mid-deletion whose remote side never existed: deletion timestamp
set, finalizer guard present, `PolicyID == 0`. -/
def deletingNoIdPolicy : Policy :=
  { Name := "test-policy", Namespace := "default", Labels := []
    Finalizers := [policyFinalizer]
    DeletionTimestampIsZero := false, Spec := freshSpec
    Status := { AppliedSpec := some freshSpec, PolicyID := 0 } }

/-- C6, counterexample: with deletion in progress, the finalizer present and
`PolicyID == 0`, the invocation succeeds with ZERO collaborator calls — in
particular no store write — so the finalizer removal is never persisted to
the declarative store, refuting the claimed persistence. -/
theorem C6_counterexample :
    deletingNoIdPolicy.DeletionTimestampIsZero = false ∧
    containsString deletingNoIdPolicy.Finalizers policyFinalizer = true ∧
    deletingNoIdPolicy.Status.PolicyID = 0 ∧
    (PolicyReconciler.Reconcile (happyPolicyDeps deletingNoIdPolicy)).err = none ∧
    (PolicyReconciler.Reconcile (happyPolicyDeps deletingNoIdPolicy)).events = [] := by
  refine ⟨rfl, by decide, rfl, by decide, by decide⟩

/-- C6 (amended): for every policy with deletion timestamp set, the finalizer
guard present and `PolicyID == 0` (and resolvable credentials), the deletion
protocol performs no remote calls AND no store writes, strips the finalizer
guard from the in-memory entity only — the stripped entity is never persisted
— and returns success. -/
theorem C6_delete_without_remote_counterpart (pd : PolicyDeps) (policy : Policy)
    (hget : pd.getPolicy = .ok policy)
    (hkey : PolicyReconciler.getAPIKeyOrSecret pd policy ≠ "")
    (hcli : pd.clientFuncErr (PolicyReconciler.getAPIKeyOrSecret pd policy) policy.Spec.Region = none)
    (hdel : policy.DeletionTimestampIsZero = false)
    (hfin : containsString policy.Finalizers policyFinalizer = true)
    (hid : policy.Status.PolicyID = 0) :
    (PolicyReconciler.Reconcile pd).err = none ∧
    (PolicyReconciler.Reconcile pd).events = [] ∧
    (PolicyReconciler.Reconcile pd).pol =
      some { policy with Finalizers := removeString policy.Finalizers policyFinalizer } ∧
    ∀ p, (PolicyReconciler.Reconcile pd).pol = some p →
      containsString p.Finalizers policyFinalizer = false := by
  rw [Reconcile_deleting pd policy hget hkey hcli hdel]
  dsimp only
  unfold PolicyReconciler.deletePolicy
  rw [if_pos hfin, if_pos hid]
  refine ⟨rfl, rfl, rfl, ?_⟩
  intro p hp
  cases Option.some.inj hp
  exact containsString_removeString policy.Finalizers policyFinalizer

/-- C6, witness: the amended theorem at the concrete mid-deletion fixture. -/
theorem C6_witness :
    (PolicyReconciler.Reconcile (happyPolicyDeps deletingNoIdPolicy)).err = none ∧
    (PolicyReconciler.Reconcile (happyPolicyDeps deletingNoIdPolicy)).events = [] ∧
    (PolicyReconciler.Reconcile (happyPolicyDeps deletingNoIdPolicy)).pol =
      some { deletingNoIdPolicy with
        Finalizers := removeString deletingNoIdPolicy.Finalizers policyFinalizer } ∧
    ∀ p, (PolicyReconciler.Reconcile (happyPolicyDeps deletingNoIdPolicy)).pol = some p →
      containsString p.Finalizers policyFinalizer = false :=
  C6_delete_without_remote_counterpart (happyPolicyDeps deletingNoIdPolicy) deletingNoIdPolicy
    rfl (by decide) rfl rfl (by decide) rfl

end NROperator

namespace NROperator

/-! ## C4 — deletion ordering -/

/-- C4: with the finalizer present, `PolicyID != 0` and a recorded applied
spec, the deletion protocol (a) when every recorded child delete succeeds,
issues the delete of every condition recorded in `AppliedSpec.Conditions`, in
order, strictly before the remote policy delete; (b) ends with the finalizer
guard removed only if all child deletes and the remote policy delete
succeeded; (c) aborts at the first failing child delete, returning that error
with the finalizer left in place and the remote policy delete never invoked. -/
theorem C4_deletion_ordering (pd : PolicyDeps) (policy : Policy) (applied : PolicySpec)
    (hfin : containsString policy.Finalizers policyFinalizer = true)
    (hid : policy.Status.PolicyID ≠ 0)
    (happ : policy.Status.AppliedSpec = some applied) :
    ((PolicyReconciler.deleteConditions pd applied.Conditions).1 = none →
      ∃ rest, (PolicyReconciler.deletePolicy pd policy policyFinalizer).events =
        applied.Conditions.map (fun c => Event.storeDeleteCondition c.Name)
          ++ Event.remoteDeletePolicy policy.Status.PolicyID :: rest) ∧
    (containsString (PolicyReconciler.deletePolicy pd policy policyFinalizer).pol.Finalizers
        policyFinalizer = false →
      (PolicyReconciler.deleteConditions pd applied.Conditions).1 = none ∧
      pd.deletePolicyRemote policy.Status.PolicyID = none) ∧
    (∀ pre c post e, applied.Conditions = pre ++ c :: post →
      (∀ c' ∈ pre, pd.storeDeleteCondition c' = none) →
      pd.storeDeleteCondition c = some e →
      (PolicyReconciler.deletePolicy pd policy policyFinalizer).err = some e ∧
      containsString (PolicyReconciler.deletePolicy pd policy policyFinalizer).pol.Finalizers
        policyFinalizer = true ∧
      (PolicyReconciler.deletePolicy pd policy policyFinalizer).events =
        pre.map (fun c' => Event.storeDeleteCondition c'.Name)
          ++ [Event.storeDeleteCondition c.Name] ∧
      ∀ i, Event.remoteDeletePolicy i ∉
        (PolicyReconciler.deletePolicy pd policy policyFinalizer).events) := by
  have hred : PolicyReconciler.deletePolicy pd policy policyFinalizer =
      (let condDel := PolicyReconciler.deleteConditions pd applied.Conditions
       match condDel.1 with
       | some e => { err := some e, pol := policy, events := condDel.2 }
       | none =>
         let polDel := PolicyReconciler.deleteNewRelicAlertPolicy pd policy
         match polDel.1 with
         | some e => { err := some e, pol := policy, events := condDel.2 ++ polDel.2 }
         | none =>
           let policy' := { policy with
             Finalizers := removeString policy.Finalizers policyFinalizer }
           let events := condDel.2 ++ polDel.2 ++ [Event.storeUpdatePolicy policy']
           match pd.storeUpdatePolicy policy' with
           | some e => { err := some e, pol := policy', events := events }
           | none => { err := none, pol := policy', events := events }) := by
    unfold PolicyReconciler.deletePolicy
    rw [if_pos hfin, if_neg hid, happ]
  refine ⟨?_, ?_, ?_⟩
  · intro hok
    rw [hred]
    dsimp only
    rw [hok]
    dsimp only [PolicyReconciler.deleteNewRelicAlertPolicy]
    rw [deleteConditions_ok pd applied.Conditions hok]
    cases hpd : pd.deletePolicyRemote policy.Status.PolicyID with
    | some e =>
      exact ⟨[], by simp⟩
    | none =>
      cases hsu : pd.storeUpdatePolicy { policy with
          Finalizers := removeString policy.Finalizers policyFinalizer } with
      | some e =>
        refine ⟨[Event.storeUpdatePolicy { policy with
          Finalizers := removeString policy.Finalizers policyFinalizer }], by simp⟩
      | none =>
        refine ⟨[Event.storeUpdatePolicy { policy with
          Finalizers := removeString policy.Finalizers policyFinalizer }], by simp⟩
  · intro hrem
    rw [hred] at hrem
    revert hrem
    dsimp only
    cases hdc : (PolicyReconciler.deleteConditions pd applied.Conditions).1 with
    | some e =>
      intro hrem
      rw [hfin] at hrem
      exact absurd hrem (by simp)
    | none =>
      dsimp only
      cases hpd : pd.deletePolicyRemote policy.Status.PolicyID with
      | some e =>
        dsimp only [PolicyReconciler.deleteNewRelicAlertPolicy]
        rw [hpd]
        intro hrem
        rw [hfin] at hrem
        exact absurd hrem (by simp)
      | none =>
        dsimp only [PolicyReconciler.deleteNewRelicAlertPolicy]
        rw [hpd]
        intro _
        exact ⟨rfl, rfl⟩
  · intro pre c post e hsplit hpre hc
    have hfirst := deleteConditions_first_error pd pre c post e hpre hc
    rw [hsplit] at hred
    rw [hred]
    dsimp only
    rw [hfirst]
    dsimp only
    refine ⟨rfl, hfin, rfl, ?_⟩
    intro i hmem
    rcases List.mem_append.mp hmem with h | h
    · rcases List.mem_map.mp h with ⟨c', _, habs⟩
      exact Event.noConfusion habs
    · exact Event.noConfusion (List.mem_singleton.mp h)

end NROperator

namespace NROperator

/-- The applied snapshot of the mid-deletion policy fixture: one recorded
child condition. -/
def deletingApplied : PolicySpec := { freshSpec with Conditions := [sampleCondition] }

/-- A policy mid-deletion with a remote identifier and one recorded child. -/
def deletingPolicy : Policy :=
  { Name := "test-policy", Namespace := "default", Labels := []
    Finalizers := [policyFinalizer]
    DeletionTimestampIsZero := false, Spec := freshSpec
    Status := { AppliedSpec := some deletingApplied, PolicyID := 444 } }

/-- C4, witness: the deletion-ordering theorem at the concrete mid-deletion
fixture, with the all-success child-delete hypothesis discharged. -/
theorem C4_witness :
    containsString deletingPolicy.Finalizers policyFinalizer = true ∧
    deletingPolicy.Status.PolicyID ≠ 0 ∧
    deletingPolicy.Status.AppliedSpec = some deletingApplied ∧
    ∃ rest, (PolicyReconciler.deletePolicy (happyPolicyDeps deletingPolicy)
        deletingPolicy policyFinalizer).events =
      deletingApplied.Conditions.map (fun c => Event.storeDeleteCondition c.Name)
        ++ Event.remoteDeletePolicy deletingPolicy.Status.PolicyID :: rest :=
  ⟨by decide, by decide, rfl,
    (C4_deletion_ordering (happyPolicyDeps deletingPolicy) deletingPolicy deletingApplied
      (by decide) (by decide) rfl).1 (by decide)⟩

/-! ## C8 — discovery de-duplication -/

/-- C8: with `PolicyID == 0`, a live reconciliation whose remote list call
returns a policy whose name exactly equals `Spec.Name` (with a non-zero
remote identifier, per the data model's id-0-means-unassigned convention)
adopts that identifier into `Status.PolicyID` at the discovery step, and the
invocation issues zero remote create calls. -/
theorem C8_discovery_dedup (pd : PolicyDeps) (policy : Policy) (l : List APIPolicy) (m : APIPolicy)
    (hget : pd.getPolicy = .ok policy)
    (hkey : PolicyReconciler.getAPIKeyOrSecret pd policy ≠ "")
    (hcli : pd.clientFuncErr (PolicyReconciler.getAPIKeyOrSecret pd policy) policy.Spec.Region = none)
    (hdel : policy.DeletionTimestampIsZero = true)
    (hne : specEqualsApplied policy.Spec policy.Status.AppliedSpec = false)
    (h0 : policy.Status.PolicyID = 0)
    (hl : pd.listPoliciesRemote policy.Spec.Name = .ok l)
    (hm : l.find? (fun q => q.Name == policy.Spec.Name) = some m)
    (hmid : m.ID ≠ 0) :
    (PolicyReconciler.checkForExistingPolicy pd
      { policy with Finalizers := ensureFinalizer policy.Finalizers policyFinalizer
      }).1.Status.PolicyID = m.ID ∧
    ∀ ev ∈ (PolicyReconciler.Reconcile pd).events, ev.isRemoteCreate = false := by
  have hadopt := checkForExistingPolicy_adopt pd
    { policy with Finalizers := ensureFinalizer policy.Finalizers policyFinalizer } l m h0 hl hm
  constructor
  · rw [hadopt]
  · rw [Reconcile_dirty pd policy hget hkey hcli hdel hne]
    dsimp only
    rw [hadopt]
    dsimp only
    rw [if_pos hmid]
    intro ev hev
    rcases List.mem_append.mp hev with h | h
    · rw [List.mem_singleton.mp h]
      rfl
    · exact updatePolicy_no_remote_create pd _ ev h

/-- The remote policy found by the discovery list call in the witness. -/
def discoveredPolicy : APIPolicy :=
  { ID := 42, Name := "test policy", IncidentPreference := "PER_POLICY" }

/-- Collaborator stub whose list call finds an existing remote policy with
the fixture's exact name. -/
def discoveryDeps : PolicyDeps :=
  { happyPolicyDeps freshPolicy with listPoliciesRemote := fun _ => .ok [discoveredPolicy] }

/-- C8, witness: the discovery theorem at the concrete fixture — identifier
42 is adopted and no remote create is issued. -/
theorem C8_witness :
    (PolicyReconciler.checkForExistingPolicy discoveryDeps
      { freshPolicy with Finalizers := ensureFinalizer freshPolicy.Finalizers policyFinalizer
      }).1.Status.PolicyID = discoveredPolicy.ID ∧
    ∀ ev ∈ (PolicyReconciler.Reconcile discoveryDeps).events, ev.isRemoteCreate = false :=
  C8_discovery_dedup discoveryDeps freshPolicy [discoveredPolicy] discoveredPolicy
    rfl (by decide) rfl rfl (by decide) rfl rfl (by decide) (by decide)

end NROperator

namespace NROperator

/-! ## C9 — credential resolver contract -/

/-- C9: the credential resolvers of both controllers return the inline key
when non-empty; otherwise, with a secret reference set, the named data field
of the fetched secret, and the empty string when the fetch fails; the empty
string when neither is set; and a blank resolution makes `Reconcile` fail
with the "api key is blank" error having issued no collaborator call. -/
theorem C9_credential_resolver (pd : PolicyDeps) (cd : ChannelDeps)
    (policy : Policy) (ch : AlertsChannel) :
    (policy.Spec.APIKey ≠ "" →
      PolicyReconciler.getAPIKeyOrSecret pd policy = policy.Spec.APIKey) ∧
    (policy.Spec.APIKey = "" → policy.Spec.APIKeySecret ≠ NewRelicAPIKeySecret.zero →
      (∀ s, pd.getSecret policy.Spec.APIKeySecret = .ok s →
        PolicyReconciler.getAPIKeyOrSecret pd policy =
          s.dataGet policy.Spec.APIKeySecret.KeyName) ∧
      (∀ e, pd.getSecret policy.Spec.APIKeySecret = .error e →
        PolicyReconciler.getAPIKeyOrSecret pd policy = "")) ∧
    (policy.Spec.APIKey = "" → policy.Spec.APIKeySecret = NewRelicAPIKeySecret.zero →
      PolicyReconciler.getAPIKeyOrSecret pd policy = "") ∧
    (ch.Spec.APIKey ≠ "" →
      AlertsChannelReconciler.getAPIKeyOrSecret cd ch = ch.Spec.APIKey) ∧
    (ch.Spec.APIKey = "" → ch.Spec.APIKeySecret ≠ NewRelicAPIKeySecret.zero →
      (∀ s, cd.getSecret ch.Spec.APIKeySecret = .ok s →
        AlertsChannelReconciler.getAPIKeyOrSecret cd ch =
          s.dataGet ch.Spec.APIKeySecret.KeyName) ∧
      (∀ e, cd.getSecret ch.Spec.APIKeySecret = .error e →
        AlertsChannelReconciler.getAPIKeyOrSecret cd ch = "")) ∧
    (ch.Spec.APIKey = "" → ch.Spec.APIKeySecret = NewRelicAPIKeySecret.zero →
      AlertsChannelReconciler.getAPIKeyOrSecret cd ch = "") ∧
    (pd.getPolicy = .ok policy → PolicyReconciler.getAPIKeyOrSecret pd policy = "" →
      PolicyReconciler.Reconcile pd =
        { err := some "api key is blank", pol := some policy, events := [] }) ∧
    (cd.getChannel = .ok ch → AlertsChannelReconciler.getAPIKeyOrSecret cd ch = "" →
      AlertsChannelReconciler.Reconcile cd =
        { err := some "api key is blank", ch := some ch, events := [] }) := by
  refine ⟨?_, ?_, ?_, ?_, ?_, ?_, ?_, ?_⟩
  · intro hk
    unfold PolicyReconciler.getAPIKeyOrSecret
    rw [if_pos hk]
  · intro hk0 hsec
    constructor
    · intro s hs
      unfold PolicyReconciler.getAPIKeyOrSecret
      rw [if_neg (not_not_intro hk0), if_pos hsec, hs]
    · intro e he
      unfold PolicyReconciler.getAPIKeyOrSecret
      rw [if_neg (not_not_intro hk0), if_pos hsec, he]
      rfl
  · intro hk0 hz
    unfold PolicyReconciler.getAPIKeyOrSecret
    rw [if_neg (not_not_intro hk0), if_neg (not_not_intro hz)]
  · intro hk
    unfold AlertsChannelReconciler.getAPIKeyOrSecret
    rw [if_pos hk]
  · intro hk0 hsec
    constructor
    · intro s hs
      unfold AlertsChannelReconciler.getAPIKeyOrSecret
      rw [if_neg (not_not_intro hk0), if_pos hsec, hs]
    · intro e he
      unfold AlertsChannelReconciler.getAPIKeyOrSecret
      rw [if_neg (not_not_intro hk0), if_pos hsec, he]
  · intro hk0 hz
    unfold AlertsChannelReconciler.getAPIKeyOrSecret
    rw [if_neg (not_not_intro hk0), if_neg (not_not_intro hz)]
  · intro hget hblank
    unfold PolicyReconciler.Reconcile
    rw [hget]
    dsimp only
    rw [if_pos hblank]
  · intro hget hblank
    unfold AlertsChannelReconciler.Reconcile
    rw [hget]
    dsimp only
    rw [if_pos hblank]

/-- A secret reference used by the resolver witness. -/
def secretRef : NewRelicAPIKeySecret :=
  { Namespace := "default", Name := "nr-secret", KeyName := "api_key" }

/-- A policy resolving its credential through a secret reference. -/
def secretPolicy : Policy :=
  { freshPolicy with Spec := { freshSpec with APIKey := "", APIKeySecret := secretRef } }

/-- A channel with neither an inline key nor a secret reference. -/
def blankChannel : AlertsChannel :=
  { syncedChannel with Spec := { chanSpec1 with APIKey := "" } }

/-- C9, witness: the resolver theorem at concrete inputs — the secret-backed
policy resolves to the secret's data field, and the credential-less channel
makes `Reconcile` fail with the blank-key error and zero calls. -/
theorem C9_witness :
    (PolicyReconciler.getAPIKeyOrSecret (happyPolicyDeps secretPolicy) secretPolicy =
      Secret.dataGet { Data := [("api_key", "s3cret")] } secretPolicy.Spec.APIKeySecret.KeyName) ∧
    (AlertsChannelReconciler.Reconcile (happyChannelDeps blankChannel) =
      { err := some "api key is blank", ch := some blankChannel, events := [] }) :=
  ⟨((C9_credential_resolver (happyPolicyDeps secretPolicy) (happyChannelDeps blankChannel)
      secretPolicy blankChannel).2.1 rfl (by decide)).1 _ rfl,
    (C9_credential_resolver (happyPolicyDeps secretPolicy) (happyChannelDeps blankChannel)
      secretPolicy blankChannel).2.2.2.2.2.2.2 rfl (by decide)⟩

end NROperator

namespace NROperator

/-! ## C7 — remote failure propagation -/

/-- Discovery is a no-op when a remote identifier is already recorded. -/
theorem checkForExistingPolicy_nonzero (pd : PolicyDeps) (p : Policy)
    (h : p.Status.PolicyID ≠ 0) :
    PolicyReconciler.checkForExistingPolicy pd p = (p, []) := by
  unfold PolicyReconciler.checkForExistingPolicy
  rw [if_neg h]

/-- A channel mid-deletion with a recorded remote identifier and a converged
spec. -/
def deletingChannel : AlertsChannel :=
  { Name := "chan", Namespace := "default", Finalizers := [channelFinalizer]
    DeletionTimestampIsZero := false, Spec := chanSpec1
    Status := { AppliedSpec := some chanSpec1, ChannelID := 9 } }

/-- Collaborator stub whose remote channel delete fails. -/
def channelDeleteFailDeps : ChannelDeps :=
  { happyChannelDeps deletingChannel with
    deleteChannelRemote := fun _ => some "remote delete failed" }

/-- C7, counterexample: the remote channel delete is invoked and fails, yet
the `Reconcile` invocation returns success — the failure of a remote mutation
call is swallowed, not returned. -/
theorem C7_counterexample :
    channelDeleteFailDeps.deleteChannelRemote deletingChannel.Status.ChannelID =
      some "remote delete failed" ∧
    Event.remoteDeleteChannel deletingChannel.Status.ChannelID ∈
      (AlertsChannelReconciler.Reconcile channelDeleteFailDeps).events ∧
    (AlertsChannelReconciler.Reconcile channelDeleteFailDeps).err = none := by
  refine ⟨rfl, by decide, by decide⟩

/-- C7 (amended): failures of the remote policy create, policy update and
policy delete, and of the remote channel create, are returned as the
`Reconcile` invocation's error; but two remote failures are logged and
swallowed: the list-policies discovery failure (reconciliation proceeds to
the create/update step regardless) and the remote channel delete failure (the
finalizer is removed and the invocation can succeed regardless). -/
theorem C7_remote_failure_propagation :
    (∀ (pd : PolicyDeps) (policy : Policy) (e : String),
      pd.getPolicy = .ok policy →
      PolicyReconciler.getAPIKeyOrSecret pd policy ≠ "" →
      pd.clientFuncErr (PolicyReconciler.getAPIKeyOrSecret pd policy) policy.Spec.Region = none →
      policy.DeletionTimestampIsZero = true →
      specEqualsApplied policy.Spec policy.Status.AppliedSpec = false →
      (PolicyReconciler.checkForExistingPolicy pd
        { policy with Finalizers := ensureFinalizer policy.Finalizers policyFinalizer
        }).1.Status.PolicyID = 0 →
      pd.createPolicyRemote policy.Spec.APIPolicy = .error e →
      (PolicyReconciler.Reconcile pd).err = some e) ∧
    (∀ (pd : PolicyDeps) (policy : Policy) (e : String),
      pd.getPolicy = .ok policy →
      PolicyReconciler.getAPIKeyOrSecret pd policy ≠ "" →
      pd.clientFuncErr (PolicyReconciler.getAPIKeyOrSecret pd policy) policy.Spec.Region = none →
      policy.DeletionTimestampIsZero = true →
      specEqualsApplied policy.Spec policy.Status.AppliedSpec = false →
      policy.Status.PolicyID ≠ 0 →
      pd.updatePolicyRemote { policy.Spec.APIPolicy with ID := policy.Status.PolicyID } =
        .error e →
      (PolicyReconciler.Reconcile pd).err = some e) ∧
    (∀ (pd : PolicyDeps) (policy : Policy) (applied : PolicySpec) (e : String),
      pd.getPolicy = .ok policy →
      PolicyReconciler.getAPIKeyOrSecret pd policy ≠ "" →
      pd.clientFuncErr (PolicyReconciler.getAPIKeyOrSecret pd policy) policy.Spec.Region = none →
      policy.DeletionTimestampIsZero = false →
      containsString policy.Finalizers policyFinalizer = true →
      policy.Status.PolicyID ≠ 0 →
      policy.Status.AppliedSpec = some applied →
      (PolicyReconciler.deleteConditions pd applied.Conditions).1 = none →
      pd.deletePolicyRemote policy.Status.PolicyID = some e →
      (PolicyReconciler.Reconcile pd).err = some e) ∧
    (∀ (cd : ChannelDeps) (ch : AlertsChannel) (e : String),
      cd.getChannel = .ok ch →
      AlertsChannelReconciler.getAPIKeyOrSecret cd ch ≠ "" →
      cd.clientFuncErr (AlertsChannelReconciler.getAPIKeyOrSecret cd ch) ch.Spec.Region = none →
      ch.DeletionTimestampIsZero = true →
      chanSpecEqualsApplied ch.Spec ch.Status.AppliedSpec = false →
      ch.Status.ChannelID = 0 →
      cd.createChannelRemote ch.Spec.APIChannel = .error e →
      (AlertsChannelReconciler.Reconcile cd).err = some e) ∧
    (∀ (pd : PolicyDeps) (policy : Policy) (e : String),
      pd.getPolicy = .ok policy →
      PolicyReconciler.getAPIKeyOrSecret pd policy ≠ "" →
      pd.clientFuncErr (PolicyReconciler.getAPIKeyOrSecret pd policy) policy.Spec.Region = none →
      policy.DeletionTimestampIsZero = true →
      specEqualsApplied policy.Spec policy.Status.AppliedSpec = false →
      policy.Status.PolicyID = 0 →
      pd.listPoliciesRemote policy.Spec.Name = .error e →
      (PolicyReconciler.Reconcile pd).err =
        (PolicyReconciler.createPolicy pd
          { policy with Finalizers := ensureFinalizer policy.Finalizers policyFinalizer }).err ∧
      Event.remoteListPolicies policy.Spec.Name ∈ (PolicyReconciler.Reconcile pd).events) ∧
    (∀ (cd : ChannelDeps) (ch : AlertsChannel) (fin e : String),
      ch.Status.ChannelID ≠ 0 →
      cd.deleteChannelRemote ch.Status.ChannelID = some e →
      cd.storeUpdateChannel { ch with Finalizers := removeString ch.Finalizers fin } = none →
      (AlertsChannelReconciler.deleteAlertsChannel cd ch fin).err = none ∧
      Event.remoteDeleteChannel ch.Status.ChannelID ∈
        (AlertsChannelReconciler.deleteAlertsChannel cd ch fin).events) := by
  refine ⟨?_, ?_, ?_, ?_, ?_, ?_⟩
  · intro pd policy e hget hkey hcli hdel hne hdisc hcreate
    rw [Reconcile_dirty pd policy hget hkey hcli hdel hne]
    dsimp only
    rw [if_neg (by rw [hdisc]; exact fun h => h rfl)]
    have hspec : (PolicyReconciler.checkForExistingPolicy pd
        { policy with Finalizers := ensureFinalizer policy.Finalizers policyFinalizer
        }).1.Spec = policy.Spec := checkForExistingPolicy_Spec pd _
    simp only [PolicyReconciler.createPolicy, hspec, hcreate]
  · intro pd policy e hget hkey hcli hdel hne hid hupd
    rw [Reconcile_dirty pd policy hget hkey hcli hdel hne]
    dsimp only
    rw [checkForExistingPolicy_nonzero pd
      { policy with Finalizers := ensureFinalizer policy.Finalizers policyFinalizer } hid]
    dsimp only
    rw [if_pos hid]
    simp only [PolicyReconciler.updatePolicy, hupd]
  · intro pd policy applied e hget hkey hcli hdel hfin hid happ hok hrd
    rw [Reconcile_deleting pd policy hget hkey hcli hdel]
    dsimp only
    unfold PolicyReconciler.deletePolicy
    rw [if_pos hfin, if_neg hid, happ]
    dsimp only
    rw [hok]
    dsimp only [PolicyReconciler.deleteNewRelicAlertPolicy]
    rw [hrd]
  · intro cd ch e hget hkey hcli hdel hne hid hce
    rw [ChannelReconcile_dirty cd ch hget hkey hcli hdel hne]
    dsimp only
    rw [if_neg (by rw [hid]; exact fun h => h rfl)]
    simp only [AlertsChannelReconciler.createAlertsChannel, hce]
  · intro pd policy e hget hkey hcli hdel hne h0 hlist
    rw [Reconcile_dirty pd policy hget hkey hcli hdel hne]
    dsimp only
    rw [checkForExistingPolicy_list_error pd
      { policy with Finalizers := ensureFinalizer policy.Finalizers policyFinalizer } e h0 hlist]
    dsimp only
    rw [if_neg (not_not_intro h0)]
    exact ⟨rfl, by simp⟩
  · intro cd ch fin e hid hrm hsu
    unfold AlertsChannelReconciler.deleteAlertsChannel
    dsimp only
    rw [if_pos hid, hsu]
    exact ⟨rfl, by simp⟩

/-- Collaborator stub whose discovery list call fails. -/
def listFailDeps : PolicyDeps :=
  { happyPolicyDeps freshPolicy with listPoliciesRemote := fun _ => .error "list failed" }

/-- C7, witness: the amended theorem at three concrete inputs — a failing
remote create propagates to the invocation's error; a failing discovery list
is swallowed (the invocation in fact succeeds); a failing remote channel
delete is swallowed by the deletion routine. -/
theorem C7_witness :
    (PolicyReconciler.Reconcile createFailDeps).err = some "Any Error Goes Here" ∧
    ((PolicyReconciler.Reconcile listFailDeps).err =
        (PolicyReconciler.createPolicy listFailDeps
          { freshPolicy with
            Finalizers := ensureFinalizer freshPolicy.Finalizers policyFinalizer }).err ∧
      Event.remoteListPolicies freshPolicy.Spec.Name ∈
        (PolicyReconciler.Reconcile listFailDeps).events) ∧
    (PolicyReconciler.Reconcile listFailDeps).err = none ∧
    ((AlertsChannelReconciler.deleteAlertsChannel channelDeleteFailDeps deletingChannel
        channelFinalizer).err = none ∧
      Event.remoteDeleteChannel deletingChannel.Status.ChannelID ∈
        (AlertsChannelReconciler.deleteAlertsChannel channelDeleteFailDeps deletingChannel
          channelFinalizer).events) :=
  ⟨C7_remote_failure_propagation.1 createFailDeps freshPolicy "Any Error Goes Here"
      rfl (by decide) rfl rfl (by decide) (by decide) rfl,
    (C7_remote_failure_propagation.2.2.2.2.1 listFailDeps freshPolicy "list failed"
      rfl (by decide) rfl rfl (by decide) rfl rfl),
    by decide,
    C7_remote_failure_propagation.2.2.2.2.2 channelDeleteFailDeps deletingChannel
      channelFinalizer "remote delete failed" (by decide) rfl rfl⟩

end NROperator
